import Mathlib

/-!
# A verification model of the GVM virtual machine

This file gives a shallow embedding, in Lean 4, of the core of the GVM
32-bit virtual machine (package `gvm`): the execution-engine loop of
`execInstructions` in `devices.go` together with the synchronous devices
(power controller, memory-management unit, console output), the VM
initialisation `setInitialVMState`, and the assembler preprocessing pass
`preprocessLine` of `compile.go`.

Modelling conventions:

* Go `uint32` values are represented by `Nat` with explicit reduction
  modulo `2^32` wherever the Go code can overflow (`u32add`, `u32sub`, …).
* The byte memory `vm.memory [65536]byte` is a function `Nat → Nat`;
  every write normalises the stored value modulo 256 and every multi-byte
  read assembles bytes little-endian, exactly as `encoding/binary` does.
* The active segment `vm.activeSegment = vm.memory[segStart : segStart+segLen]`
  is kept as the pair `(segStart, segLen)` plus `stackOffsetBytes`,
  mirroring the Go slice view; addresses into the segment are translated
  by `computeRelativeStackPointer` as in the source.
* Go panics from host-level out-of-bounds slice indexing are recovered by
  the engine and turned into a segmentation fault.  Where the source
  performs an *explicit* bounds check followed by an indexing operation
  (the `push`/`pop` opcodes) the model raises the segmentation-fault error
  code at exactly the checked condition.  For the remaining stack accesses
  the model is total and theorems carry in-range hypotheses under which
  the Go code does not panic either.
* IEEE-754 single precision arithmetic (`addf`, `divf`, `remf`, …) is pure
  bit-pattern passthrough in the source and is modelled by an abstract
  operation table `FloatOps`; all theorems hold for every instantiation.
* The device response bus and the goroutines of the system timer and the
  console reader are concurrent and outside the sequential model; the
  engine branch that drains the bus is omitted.  The power controller and
  the MMU are called synchronously from the engine thread (`TrySend`) and
  are modelled in full; console output is modelled as an output trace.
-/

/-! ## 32-bit machine arithmetic -/

/-- `2^32`, the modulus of the 32-bit virtual architecture. -/
def u32mod : Nat := 4294967296

/-- Go `uint32` addition: wraparound modulo `2^32`. -/
def u32add (a b : Nat) : Nat := (a + b) % u32mod

/-- Go `uint32` subtraction: two's-complement wraparound modulo `2^32`. -/
def u32sub (a b : Nat) : Nat := (a + (u32mod - b % u32mod)) % u32mod

/-- Go `uint32` multiplication modulo `2^32`. -/
def u32mul (a b : Nat) : Nat := (a * b) % u32mod

/-- Go bitwise complement `^x` on `uint32`. -/
def u32not (a : Nat) : Nat := (u32mod - 1) - a % u32mod

/-- Reinterpret a `uint32` bit pattern as Go `int32` (two's complement). -/
def toInt32 (n : Nat) : Int :=
  if n % u32mod < 2147483648 then ((n % u32mod : Nat) : Int)
  else ((n % u32mod : Nat) : Int) - (u32mod : Int)

/-- Go conversion `uint32(i)` of an `int32` value: the two's-complement
bit pattern, i.e. the representative of `i` modulo `2^32`. -/
def intToU32 (i : Int) : Nat := (i % (u32mod : Int)).toNat

/-! ## Byte memory, little-endian words -/

/-- The VM's byte memory (`vm.memory`), a byte store indexed by address. -/
abbrev Mem := Nat → Nat

/-- Write one byte (Go assignment into a `[]byte`). -/
def memWriteByte (m : Mem) (a v : Nat) : Mem :=
  fun x => if x = a then v % 256 else m x

/-- `binary.LittleEndian.Uint32`: read four bytes at `a`, low byte first. -/
def readWord (m : Mem) (a : Nat) : Nat :=
  m a % 256 + 256 * (m (a + 1) % 256) + 65536 * (m (a + 2) % 256) +
    16777216 * (m (a + 3) % 256)

/-- `binary.LittleEndian.Uint16`: read two bytes at `a`, low byte first. -/
def readHalf (m : Mem) (a : Nat) : Nat :=
  m a % 256 + 256 * (m (a + 1) % 256)

/-- `binary.LittleEndian.PutUint32`: write four bytes at `a`, low first. -/
def writeWord (m : Mem) (a v : Nat) : Mem :=
  memWriteByte
    (memWriteByte
      (memWriteByte (memWriteByte m a v) (a + 1) (v / 256))
      (a + 2) (v / 65536))
    (a + 3) (v / 16777216)

theorem memWriteByte_same (m : Mem) (a v : Nat) :
    memWriteByte m a v a = v % 256 := by
  simp [memWriteByte]

theorem memWriteByte_other (m : Mem) (a v x : Nat) (h : x ≠ a) :
    memWriteByte m a v x = m x := by
  simp [memWriteByte, h]

/-- Reading back the word just written yields the value modulo `2^32`. -/
theorem readWord_writeWord_self (m : Mem) (a v : Nat) :
    readWord (writeWord m a v) a = v % u32mod := by
  simp only [readWord, writeWord, memWriteByte]
  have h1 : ¬(a = a + 1) := by omega
  have h2 : ¬(a = a + 2) := by omega
  have h3 : ¬(a = a + 3) := by omega
  have h4 : ¬(a + 1 = a + 2) := by omega
  have h5 : ¬(a + 1 = a + 3) := by omega
  have h6 : ¬(a + 2 = a + 3) := by omega
  simp only [if_pos rfl, if_neg h1, if_neg h2, if_neg h3, if_neg h4,
    if_neg h5, if_neg h6, ite_true, u32mod]
  omega

/-- A word write at `a` does not disturb a word read at a disjoint `a'`. -/
theorem readWord_writeWord_disjoint (m : Mem) (a v a' : Nat)
    (h : a' + 3 < a ∨ a + 3 < a') :
    readWord (writeWord m a v) a' = readWord m a' := by
  simp only [readWord, writeWord, memWriteByte]
  have h0 : ¬(a' = a) ∧ ¬(a' = a + 1) ∧ ¬(a' = a + 2) ∧ ¬(a' = a + 3) := by omega
  have h1 : ¬(a' + 1 = a) ∧ ¬(a' + 1 = a + 1) ∧ ¬(a' + 1 = a + 2) ∧ ¬(a' + 1 = a + 3) := by omega
  have h2 : ¬(a' + 2 = a) ∧ ¬(a' + 2 = a + 1) ∧ ¬(a' + 2 = a + 2) ∧ ¬(a' + 2 = a + 3) := by omega
  have h3 : ¬(a' + 3 = a) ∧ ¬(a' + 3 = a + 1) ∧ ¬(a' + 3 = a + 2) ∧ ¬(a' + 3 = a + 3) := by omega
  simp only [if_neg h0.1, if_neg h0.2.1, if_neg h0.2.2.1, if_neg h0.2.2.2,
    if_neg h1.1, if_neg h1.2.1, if_neg h1.2.2.1, if_neg h1.2.2.2,
    if_neg h2.1, if_neg h2.2.1, if_neg h2.2.2.1, if_neg h2.2.2.2,
    if_neg h3.1, if_neg h3.2.1, if_neg h3.2.2.1, if_neg h3.2.2.2]

/-- A single byte write at `a` does not disturb a word read disjoint from it. -/
theorem readWord_memWriteByte_disjoint (m : Mem) (a v a' : Nat)
    (h : a' + 3 < a ∨ a < a') :
    readWord (memWriteByte m a v) a' = readWord m a' := by
  simp only [readWord, memWriteByte]
  have h0 : ¬(a' = a) := by omega
  have h1 : ¬(a' + 1 = a) := by omega
  have h2 : ¬(a' + 2 = a) := by omega
  have h3 : ¬(a' + 3 = a) := by omega
  simp only [if_neg h0, if_neg h1, if_neg h2, if_neg h3]

theorem readWord_lt (m : Mem) (a : Nat) : readWord m a < u32mod := by
  have h0 := Nat.mod_lt (m a) (show 0 < 256 by omega)
  have h1 := Nat.mod_lt (m (a + 1)) (show 0 < 256 by omega)
  have h2 := Nat.mod_lt (m (a + 2)) (show 0 < 256 by omega)
  have h3 := Nat.mod_lt (m (a + 3)) (show 0 < 256 by omega)
  simp only [readWord, u32mod]
  omega

/-! ## Architecture constants (from `devices.go`) -/

/-- `varchBytes`: 4 bytes, the 32-bit virtual architecture word size. -/
def varchBytes : Nat := 4

/-- `maxInterrupts`: total number of interrupt vector table slots. -/
def maxInterrupts : Nat := 64

/-- `maxHWDevices`: number of hardware device slots (and IVT ports). -/
def maxHWDevices : Nat := 16

/-- `maxRestrictedInterrupts = maxHWDevices + 24`. -/
def maxRestrictedInterrupts : Nat := maxHWDevices + 24

/-- `maxPublicInterrupts = maxInterrupts - maxRestrictedInterrupts`. -/
def maxPublicInterrupts : Nat := maxInterrupts - maxRestrictedInterrupts

/-- `reservedBytes = maxInterrupts * varchBytes`: IVT size, also the load
address of the program image. -/
def reservedBytes : Nat := maxInterrupts * varchBytes

/-- `numRegisters`: number of public registers. -/
def numRegisters : Nat := 32

/-- `heapSizeBytes`: total memory size (65536 bytes). -/
def heapSizeBytes : Nat := 65536

/-- `hwInterruptAddrRange = maxHWDevices * varchBytes`. -/
def hwInterruptAddrRange : Nat := maxHWDevices * varchBytes

/-- `restrictedInterruptsAddrRange = maxRestrictedInterrupts * varchBytes`:
the first public-interrupt address; `sysint` below this is privileged. -/
def restrictedInterruptsAddrRange : Nat := maxRestrictedInterrupts * varchBytes

/-- `publicInterruptsAddrRange`: one past the last public IVT address. -/
def publicInterruptsAddrRange : Nat :=
  restrictedInterruptsAddrRange + maxPublicInterrupts * varchBytes

/-- `instructionBytes`: fixed 8-byte instruction encoding. -/
def instructionBytes : Nat := 8

/-! ## Error codes and the hardware exception map -/

/-- The error values of `devices.go` (`errSystemShutdown` … `errIO`). -/
inductive ErrCode where
  | systemShutdown
  | segmentationFault
  | divisionByZero
  | unknownInstruction
  | illegalInstruction
  | ioError
deriving DecidableEq, Repr

/-- `hardwareExceptionMap`: error code → IVT slot address; the shutdown
code is absent from the Go map and yields `none`. -/
def hardwareExceptionMap : ErrCode → Option Nat
  | .segmentationFault => some (hwInterruptAddrRange + 0 * varchBytes)
  | .divisionByZero => some (hwInterruptAddrRange + 1 * varchBytes)
  | .unknownInstruction => some (hwInterruptAddrRange + 2 * varchBytes)
  | .illegalInstruction => some (hwInterruptAddrRange + 3 * varchBytes)
  | .ioError => some (hwInterruptAddrRange + 4 * varchBytes)
  | .systemShutdown => none

/-! ## The VM state

`vm.registers` is a single array of 40 `uint32` cells; `vm.pc`, `vm.sp`,
`vm.fp` and `vm.mode` are pointers to cells 0, 1, 2 and 32 of it, so the
model keeps one register function and derives the four aliases. -/

/-- The sequential state of the VM (engine-owned data of `type VM`). -/
structure VMState where
  /-- `vm.registers`: 32 public + 8 reserved registers, as a function. -/
  registers : Nat → Nat
  /-- `vm.memory`: the 65536-byte flat memory. -/
  memory : Mem
  /-- Start of `vm.activeSegment` inside `vm.memory`. -/
  segStart : Nat
  /-- Length of `vm.activeSegment`. -/
  segLen : Nat
  /-- `vm.stackOffsetBytes`. -/
  stackOffsetBytes : Nat
  /-- `memoryManagement.minHeapAddr` of the MMU device. -/
  mmuMin : Nat
  /-- `memoryManagement.maxHeapAddr` of the MMU device. -/
  mmuMax : Nat
  /-- `vm.processInstructionBytes`. -/
  processInstructionBytes : Nat
  /-- `vm.errcode` (`none` = `nil`). -/
  errcode : Option ErrCode
  /-- Bytes/runes written to `vm.stdout` by the console device. -/
  output : List Nat

/-- `*vm.pc` (alias of `vm.registers[0]`). -/
def VMState.pc (s : VMState) : Nat := s.registers 0

/-- `*vm.sp` (alias of `vm.registers[1]`). -/
def VMState.sp (s : VMState) : Nat := s.registers 1

/-- `*vm.fp` (alias of `vm.registers[2]`). -/
def VMState.fp (s : VMState) : Nat := s.registers 2

/-- `*vm.mode` (alias of `vm.registers[numRegisters] = vm.registers[32]`). -/
def VMState.mode (s : VMState) : Nat := s.registers 32

/-- Assign register `i` (a Go `uint32` store, hence reduced mod `2^32`). -/
def VMState.setReg (s : VMState) (i v : Nat) : VMState :=
  { s with registers := fun j => if j = i then v % u32mod else s.registers j }

/-! ## Stack access helpers (from `devices.go`) -/

/-- `computeRelativeStackPointer`: absolute pointer − stack offset
(`uint32` subtraction). -/
def computeRelativeStackPointer (s : VMState) (sp : Nat) : Nat :=
  u32sub sp s.stackOffsetBytes

/-- Read the 32-bit word at index `r` of the active segment
(`uint32FromBytes(vm.activeSegment[r:])`). -/
def segReadWord (s : VMState) (r : Nat) : Nat :=
  readWord s.memory (s.segStart + r)

/-- Write the 32-bit word at index `r` of the active segment
(`uint32ToBytes(v, vm.activeSegment[r:])`). -/
def segWriteWord (s : VMState) (r v : Nat) : VMState :=
  { s with memory := writeWord s.memory (s.segStart + r) v }

/-- `vm.peekStack` as a 32-bit read of the stack top. -/
def peekStackWord (s : VMState) : Nat :=
  segReadWord s (computeRelativeStackPointer s s.sp)

/-- `vm.pushStack(value)`: move SP down one word and store `value`. -/
def pushStack (s : VMState) (v : Nat) : VMState :=
  let sp' := u32sub s.sp varchBytes
  let s1 := s.setReg 1 sp'
  segWriteWord s1 (computeRelativeStackPointer s1 sp') v

/-- `vm.pushStackByte(value)`: move SP down one byte and store it. -/
def pushStackByte (s : VMState) (v : Nat) : VMState :=
  let sp' := u32sub s.sp 1
  let s1 := s.setReg 1 sp'
  { s1 with
    memory := memWriteByte s1.memory
      (s1.segStart + computeRelativeStackPointer s1 sp') v }

/-- `vm.pushStackTwo(v0, v1)`: as if `push(v1); push(v0)`. -/
def pushStackTwo (s : VMState) (v0 v1 : Nat) : VMState :=
  let sp' := u32sub s.sp (2 * varchBytes)
  let s1 := s.setReg 1 sp'
  let base := s1.segStart + computeRelativeStackPointer s1 sp'
  { s1 with memory := writeWord (writeWord s1.memory base v0) (base + 4) v1 }

/-- `vm.pushStackFour(v0, v1, v2, v3)`: as if
`push(v3); push(v2); push(v1); push(v0)`; `v0` ends at the lowest address. -/
def pushStackFour (s : VMState) (v0 v1 v2 v3 : Nat) : VMState :=
  let sp' := u32sub s.sp (4 * varchBytes)
  let s1 := s.setReg 1 sp'
  let base := s1.segStart + computeRelativeStackPointer s1 sp'
  { s1 with
    memory := writeWord (writeWord (writeWord (writeWord s1.memory base v0)
      (base + 4) v1) (base + 8) v2) (base + 12) v3 }

/-- Store a list of bytes at increasing addresses (inner loop of
`pushStackSegment`; the source copies downwards so overlapping
source/target ranges with a lower source end are safe — a pure-function
model is insensitive to the copy order). -/
def writeBytes (m : Mem) (a : Nat) : List Nat → Mem
  | [] => m
  | b :: rest => writeBytes (memWriteByte m a b) (a + 1) rest

/-- `vm.pushStackSegment(data)`: no-op on empty data, else move SP down
`len(data)` and copy the bytes. -/
def pushStackSegment (s : VMState) (data : List Nat) : VMState :=
  if data.isEmpty then s
  else
    let sp' := u32sub s.sp data.length
    let s1 := s.setReg 1 sp'
    { s1 with
      memory := writeBytes s1.memory
        (s1.segStart + computeRelativeStackPointer s1 sp') data }

/-- `vm.popStackUint32`: value at the old SP, SP moved up one word. -/
def popStackUint32 (s : VMState) : VMState × Nat :=
  (s.setReg 1 (u32add s.sp varchBytes),
   segReadWord s (computeRelativeStackPointer s s.sp))

/-- `vm.popStackx2Uint32`: the two topmost words, SP moved up two words. -/
def popStackx2Uint32 (s : VMState) : VMState × Nat × Nat :=
  let r := computeRelativeStackPointer s s.sp
  (s.setReg 1 (u32add s.sp (2 * varchBytes)),
   segReadWord s r, segReadWord s (r + 4))

/-- `vm.popStackx4Uint32`: the four topmost words, SP moved up four words. -/
def popStackx4Uint32 (s : VMState) : VMState × Nat × Nat × Nat × Nat :=
  let r := computeRelativeStackPointer s s.sp
  (s.setReg 1 (u32add s.sp (4 * varchBytes)),
   segReadWord s r, segReadWord s (r + 4),
   segReadWord s (r + 8), segReadWord s (r + 12))

/-- `getStackOneInput`: peek the top word; the result is later written
back over the top via `writeTopWord`. -/
def getStackOneInput (s : VMState) : Nat := peekStackWord s

/-- `getStackTwoInputs`: pop the first word, peek the second; returns the
popped state and `(x, y)`; results overwrite `y`'s bytes (the new top). -/
def getStackTwoInputs (s : VMState) : VMState × Nat × Nat :=
  let r := computeRelativeStackPointer s s.sp
  (s.setReg 1 (u32add s.sp varchBytes),
   segReadWord s r, segReadWord s (r + 4))

/-- Overwrite the word at the current stack top (the `bytes` out-slice of
`getStackOneInput` / `getStackTwoInputs`). -/
def writeTopWord (s : VMState) (v : Nat) : VMState :=
  segWriteWord s (computeRelativeStackPointer s s.sp) v

/-- `compare` on `uint32` operands: `0xFFFFFFFF`, `0`, or `1`. -/
def compareU32 (x y : Nat) : Nat :=
  if x < y then 4294967295 else if x > y then 1 else 0

/-- `compare` on `int32` operands. -/
def compareI32 (x y : Int) : Nat :=
  if x < y then 4294967295 else if x > y then 1 else 0

/-! ## Synchronous devices (from `devices.go`)

The power controller and the memory-management unit are invoked
synchronously on the engine thread and mutate the VM directly; the system
timer only communicates through its own channel and the response bus, so
its `TrySend` leaves the sequential VM state unchanged.  Console reads
(command 4) flow through the concurrent reader goroutine and the response
bus and are likewise outside the sequential model. -/

/-- Read a 32-bit little-endian word out of a request-data byte list
(`uint32FromBytes(data[i:])`); missing bytes read as 0 (in Go they would
panic, which the engine maps to a segmentation fault — theorems touching
this path pass complete data). -/
def readWordList (data : List Nat) (i : Nat) : Nat :=
  (data.getD i 0) % 256 + 256 * ((data.getD (i + 1) 0) % 256) +
    65536 * ((data.getD (i + 2) 0) % 256) +
    16777216 * ((data.getD (i + 3) 0) % 256)

/-- `memoryManagement.updateBounds`: privileged mode exposes the whole
memory with stack offset 0; otherwise the stored MMU window applies. -/
def mmuUpdateBounds (s : VMState) : VMState :=
  if s.mode = 0 then
    { s with segStart := 0, segLen := heapSizeBytes, stackOffsetBytes := 0 }
  else
    { s with segStart := s.mmuMin, segLen := s.mmuMax - s.mmuMin,
             stackOffsetBytes := s.mmuMin }

/-- `memoryManagement.TrySend`: command 1 is a status query; command 2
stores a new `(min, max)` window; every non-status command re-applies
`updateBounds`.  Returns the new state and the status code. -/
def mmuTrySend (s : VMState) (command : Nat) (data : List Nat) :
    VMState × Nat :=
  if command = 1 then (s, 1)
  else if command = 2 then
    (mmuUpdateBounds { s with mmuMin := readWordList data 0,
                              mmuMax := readWordList data 4 }, 1)
  else (mmuUpdateBounds s, 1)

/-- `memoryManagement.Reset`: restore the full-memory window and
re-apply the bounds. -/
def mmuReset (s : VMState) : VMState :=
  mmuUpdateBounds { s with mmuMin := 0, mmuMax := heapSizeBytes }

/-- `vm.setInitialVMState`: PC to the image base, SP one past the last
stack address, FP = SP, privileged mode, clear the error, let the MMU
re-apply the bounds, then push the two initial arguments: first
`reservedBytes`, then `vm.processInstructionBytes`. -/
def setInitialVMState (s : VMState) : VMState :=
  let s1 := s.setReg 0 reservedBytes
  let s2 := s1.setReg 1 heapSizeBytes
  let s3 := s2.setReg 2 s2.sp
  let s4 := s3.setReg 32 0
  let s5 := { s4 with errcode := none }
  let s6 := (mmuTrySend s5 3 []).1
  let s7 := pushStack s6 reservedBytes
  pushStack s7 s7.processInstructionBytes

/-- Device `Reset` fan-out of a restart: of the sixteen devices only the
MMU's `Reset` touches the sequential VM state (the timer re-arms its own
channel, the console sets an internal flag, the power controller and the
`nodevice` markers do nothing). -/
def resetAllDevices (s : VMState) : VMState := mmuReset s

/-- `powerController.TrySend`: command 2 restarts (re-initialise the VM
state, then `Reset` every device); command 3 powers off (close every
device and set the shutdown error).  Always returns status ready. -/
def powerTrySend (s : VMState) (command : Nat) : VMState × Nat :=
  if command = 2 then (resetAllDevices (setInitialVMState s), 1)
  else if command = 3 then ({ s with errcode := some .systemShutdown }, 1)
  else (s, 1)

/-- `consoleIO.TrySend`: command 2 writes one 32-bit code point to the
output (the UTF-8 encoding performed by `WriteRune` is kept abstract as
the code point itself); command 3 copies `n` bytes of memory starting at
`addr` to the output; command 4 enqueues a concurrent read request (no
sequential state change; its overflow path answers over the response bus,
which is outside this model). -/
def consoleTrySend (s : VMState) (command : Nat) (data : List Nat) :
    VMState × Nat :=
  if command = 2 then
    ({ s with output := s.output ++ [readWordList data 0] }, 1)
  else if command = 3 then
    let numBytes := readWordList data 0
    let addr := readWordList data 4
    ({ s with output :=
        s.output ++ (List.range numBytes).map (fun i => s.memory (addr + i) % 256) }, 1)
  else (s, 1)

/-- `systemTimer.TrySend`: a status query or an arm request over the
timer's own channel; no sequential VM state change. -/
def timerTrySend (s : VMState) : VMState × Nat := (s, 1)

/-- `vm.devices[devIdx].TrySend(id, command, data)` for the four built-in
devices; every other slot holds the `nodevice` marker, whose `TrySend`
returns `StatusDeviceNotFound` (0). -/
def deviceTrySend (s : VMState) (devIdx command : Nat) (data : List Nat) :
    VMState × Nat :=
  if devIdx = 0 then timerTrySend s
  else if devIdx = 1 then powerTrySend s command
  else if devIdx = 2 then mmuTrySend s command data
  else if devIdx = 3 then consoleTrySend s command data
  else (s, 0)

/-- `GetInfo().HWID` of the built-in devices (metadata is always empty). -/
def deviceHWID (devIdx : Nat) : Nat :=
  if devIdx = 0 then 1
  else if devIdx = 1 then 2
  else if devIdx = 2 then 3
  else if devIdx = 3 then 4
  else 0

/-! ## Instruction decoding and opcode tags -/

/-- `decodeInstruction`: `(code, register, oparg)` from eight bytes of
memory — the low 16 bits of the first word are the (arg-count | opcode)
tag, the high 16 bits the register index, the second word the argument. -/
def decodeInstruction (m : Mem) (a : Nat) : Nat × Nat × Nat :=
  let codeRegister := readWord m a
  (codeRegister % 65536, codeRegister / 65536, readWord m (a + 4))

/-- The opcode byte values of `bytecode.go` (prefixed `bc` in the model).
The constants `bcRload` … `bcHalt` belong to declarations whose defining
file is not part of the provided sources (only their uses in `compile.go`
and the engine are).  Modelled from the spec: §6 fixes the closed mnemonic
set; the numeric values of those opcodes are immaterial to every property
proved here (only their distinctness is used), so fresh distinct byte
values are chosen for them. -/
def bcNop : Nat := 0x00

/-- `Byte` opcode value. -/
def bcByte : Nat := 0x01

/-- `Const` opcode value. -/
def bcConst : Nat := 0x02

/-- `Rload` opcode value (see `bcNop` on provenance). -/
def bcRload : Nat := 0x03

/-- `Rstore` opcode value (see `bcNop` on provenance). -/
def bcRstore : Nat := 0x04

/-- `Rkstore` opcode value (see `bcNop` on provenance). -/
def bcRkstore : Nat := 0x05

/-- `Loadp8` opcode value. -/
def bcLoadp8 : Nat := 0x10

/-- `Loadp16` opcode value. -/
def bcLoadp16 : Nat := 0x11

/-- `Loadp32` opcode value. -/
def bcLoadp32 : Nat := 0x12

/-- `Storep8` opcode value. -/
def bcStorep8 : Nat := 0x13

/-- `Storep16` opcode value. -/
def bcStorep16 : Nat := 0x14

/-- `Storep32` opcode value. -/
def bcStorep32 : Nat := 0x15

/-- `Push` opcode value. -/
def bcPush : Nat := 0x16

/-- `Pop` opcode value. -/
def bcPop : Nat := 0x17

/-- `Addi` opcode value. -/
def bcAddi : Nat := 0x20

/-- `Addf` opcode value. -/
def bcAddf : Nat := 0x21

/-- `Subi` opcode value. -/
def bcSubi : Nat := 0x22

/-- `Subf` opcode value. -/
def bcSubf : Nat := 0x23

/-- `Muli` opcode value. -/
def bcMuli : Nat := 0x24

/-- `Mulf` opcode value. -/
def bcMulf : Nat := 0x25

/-- `Divi` opcode value. -/
def bcDivi : Nat := 0x26

/-- `Divf` opcode value. -/
def bcDivf : Nat := 0x27

/-- `Remu` opcode value. -/
def bcRemu : Nat := 0x28

/-- `Rems` opcode value. -/
def bcRems : Nat := 0x29

/-- `Remf` opcode value. -/
def bcRemf : Nat := 0x2A

/-- `Not` opcode value. -/
def bcNot : Nat := 0x30

/-- `And` opcode value. -/
def bcAnd : Nat := 0x31

/-- `Or` opcode value. -/
def bcOr : Nat := 0x32

/-- `Xor` opcode value. -/
def bcXor : Nat := 0x33

/-- `Shiftr` opcode value. -/
def bcShiftr : Nat := 0x34

/-- `Shiftl` opcode value. -/
def bcShiftl : Nat := 0x35

/-- `Jmp` opcode value. -/
def bcJmp : Nat := 0x40

/-- `Jz` opcode value. -/
def bcJz : Nat := 0x41

/-- `Jnz` opcode value. -/
def bcJnz : Nat := 0x42

/-- `Jle` opcode value. -/
def bcJle : Nat := 0x43

/-- `Jl` opcode value. -/
def bcJl : Nat := 0x44

/-- `Jge` opcode value. -/
def bcJge : Nat := 0x45

/-- `Jg` opcode value. -/
def bcJg : Nat := 0x46

/-- `Cmpu` opcode value. -/
def bcCmpu : Nat := 0x47

/-- `Cmps` opcode value. -/
def bcCmps : Nat := 0x48

/-- `Cmpf` opcode value. -/
def bcCmpf : Nat := 0x49

/-- `Call` opcode value (see `bcNop` on provenance). -/
def bcCall : Nat := 0x4A

/-- `Return` opcode value (see `bcNop` on provenance). -/
def bcReturn : Nat := 0x4B

/-- `Sysint` opcode value (see `bcNop` on provenance). -/
def bcSysint : Nat := 0x4C

/-- `Resume` opcode value (see `bcNop` on provenance). -/
def bcResume : Nat := 0x4D

/-- `Write` opcode value (see `bcNop` on provenance). -/
def bcWrite : Nat := 0x4E

/-- `Srload` opcode value (see `bcNop` on provenance). -/
def bcSrload : Nat := 0x4F

/-- `Srstore` opcode value (see `bcNop` on provenance). -/
def bcSrstore : Nat := 0x50

/-- `Halt` opcode value (see `bcNop` on provenance). -/
def bcHalt : Nat := 0x51

/-- `Raddi` opcode value. -/
def bcRaddi : Nat := 0x60

/-- `Raddf` opcode value. -/
def bcRaddf : Nat := 0x61

/-- `Rsubi` opcode value. -/
def bcRsubi : Nat := 0x62

/-- `Rsubf` opcode value. -/
def bcRsubf : Nat := 0x63

/-- `Rmuli` opcode value. -/
def bcRmuli : Nat := 0x64

/-- `Rmulf` opcode value. -/
def bcRmulf : Nat := 0x65

/-- `Rdivi` opcode value. -/
def bcRdivi : Nat := 0x66

/-- `Rdivf` opcode value. -/
def bcRdivf : Nat := 0x67

/-- `Rshiftr` opcode value. -/
def bcRshiftr : Nat := 0x68

/-- `Rshiftl` opcode value. -/
def bcRshiftl : Nat := 0x69

/-! The `(arg-count | opcode)` dispatch tags of `compile.go`.  The source
forms them as `0x0100 | code` / `0x0200 | code`; every opcode byte is
below `0x100`, so the bitwise or is written as addition here. -/

/-- `nopNoArgs`. -/
def nopNoArgs : Nat := bcNop

/-- `byteOneArg`. -/
def byteOneArg : Nat := 0x0100 + bcByte

/-- `constOneArg`. -/
def constOneArg : Nat := 0x0100 + bcConst

/-- `loadOneArg`. -/
def loadOneArg : Nat := 0x0100 + bcRload

/-- `storeOneArg`. -/
def storeOneArg : Nat := 0x0100 + bcRstore

/-- `kstoreOneArg`. -/
def kstoreOneArg : Nat := 0x0100 + bcRkstore

/-- `loadp8NoArgs`. -/
def loadp8NoArgs : Nat := bcLoadp8

/-- `loadp16NoArgs`. -/
def loadp16NoArgs : Nat := bcLoadp16

/-- `loadp32NoArgs`. -/
def loadp32NoArgs : Nat := bcLoadp32

/-- `loadp8OneArg`. -/
def loadp8OneArg : Nat := 0x0100 + bcLoadp8

/-- `loadp16OneArg`. -/
def loadp16OneArg : Nat := 0x0100 + bcLoadp16

/-- `loadp32OneArg`. -/
def loadp32OneArg : Nat := 0x0100 + bcLoadp32

/-- `storep8NoArgs`. -/
def storep8NoArgs : Nat := bcStorep8

/-- `storep16NoArgs`. -/
def storep16NoArgs : Nat := bcStorep16

/-- `storep32NoArgs`. -/
def storep32NoArgs : Nat := bcStorep32

/-- `storep8OneArg`. -/
def storep8OneArg : Nat := 0x0100 + bcStorep8

/-- `storep16OneArg`. -/
def storep16OneArg : Nat := 0x0100 + bcStorep16

/-- `storep32OneArg`. -/
def storep32OneArg : Nat := 0x0100 + bcStorep32

/-- `pushNoArgs`. -/
def pushNoArgs : Nat := bcPush

/-- `pushOneArg`. -/
def pushOneArg : Nat := 0x0100 + bcPush

/-- `popNoArgs`. -/
def popNoArgs : Nat := bcPop

/-- `popOneArg`. -/
def popOneArg : Nat := 0x0100 + bcPop

/-- `addiNoArgs`. -/
def addiNoArgs : Nat := bcAddi

/-- `addiOneArg`. -/
def addiOneArg : Nat := 0x0100 + bcAddi

/-- `addfNoArgs`. -/
def addfNoArgs : Nat := bcAddf

/-- `addfOneArg`. -/
def addfOneArg : Nat := 0x0100 + bcAddf

/-- `subiNoArgs`. -/
def subiNoArgs : Nat := bcSubi

/-- `subiOneArg`. -/
def subiOneArg : Nat := 0x0100 + bcSubi

/-- `subfNoArgs`. -/
def subfNoArgs : Nat := bcSubf

/-- `subfOneArg`. -/
def subfOneArg : Nat := 0x0100 + bcSubf

/-- `muliNoArgs`. -/
def muliNoArgs : Nat := bcMuli

/-- `muliOneArg`. -/
def muliOneArg : Nat := 0x0100 + bcMuli

/-- `mulfNoArgs`. -/
def mulfNoArgs : Nat := bcMulf

/-- `mulfOneArg`. -/
def mulfOneArg : Nat := 0x0100 + bcMulf

/-- `diviNoArgs`. -/
def diviNoArgs : Nat := bcDivi

/-- `diviOneArg`. -/
def diviOneArg : Nat := 0x0100 + bcDivi

/-- `divfNoArgs`. -/
def divfNoArgs : Nat := bcDivf

/-- `divfOneArg`. -/
def divfOneArg : Nat := 0x0100 + bcDivf

/-- `remuNoArgs`. -/
def remuNoArgs : Nat := bcRemu

/-- `remuOneArg`. -/
def remuOneArg : Nat := 0x0100 + bcRemu

/-- `remsNoArgs`. -/
def remsNoArgs : Nat := bcRems

/-- `remsOneArg`. -/
def remsOneArg : Nat := 0x0100 + bcRems

/-- `remfNoArgs`. -/
def remfNoArgs : Nat := bcRemf

/-- `remfOneArg`. -/
def remfOneArg : Nat := 0x0100 + bcRemf

/-- `notNoArgs`. -/
def notNoArgs : Nat := bcNot

/-- `andNoArgs`. -/
def andNoArgs : Nat := bcAnd

/-- `andOneArg`. -/
def andOneArg : Nat := 0x0100 + bcAnd

/-- `orNoArgs`. -/
def orNoArgs : Nat := bcOr

/-- `orOneArg`. -/
def orOneArg : Nat := 0x0100 + bcOr

/-- `xorNoArgs`. -/
def xorNoArgs : Nat := bcXor

/-- `xorOneArg`. -/
def xorOneArg : Nat := 0x0100 + bcXor

/-- `shiftLNoArgs`. -/
def shiftLNoArgs : Nat := bcShiftl

/-- `shiftLOneArg`. -/
def shiftLOneArg : Nat := 0x0100 + bcShiftl

/-- `shiftRNoArgs`. -/
def shiftRNoArgs : Nat := bcShiftr

/-- `shiftROneArg`. -/
def shiftROneArg : Nat := 0x0100 + bcShiftr

/-- `jmpNoArgs`. -/
def jmpNoArgs : Nat := bcJmp

/-- `jmpOneArg`. -/
def jmpOneArg : Nat := 0x0100 + bcJmp

/-- `jzNoArgs`. -/
def jzNoArgs : Nat := bcJz

/-- `jzOneArg`. -/
def jzOneArg : Nat := 0x0100 + bcJz

/-- `jnzNoArgs`. -/
def jnzNoArgs : Nat := bcJnz

/-- `jnzOneArg`. -/
def jnzOneArg : Nat := 0x0100 + bcJnz

/-- `jleNoArgs`. -/
def jleNoArgs : Nat := bcJle

/-- `jleOneArg`. -/
def jleOneArg : Nat := 0x0100 + bcJle

/-- `jlNoArgs`. -/
def jlNoArgs : Nat := bcJl

/-- `jlOneArg`. -/
def jlOneArg : Nat := 0x0100 + bcJl

/-- `jgeNoArgs`. -/
def jgeNoArgs : Nat := bcJge

/-- `jgeOneArg`. -/
def jgeOneArg : Nat := 0x0100 + bcJge

/-- `jgNoArgs`. -/
def jgNoArgs : Nat := bcJg

/-- `jgOneArg`. -/
def jgOneArg : Nat := 0x0100 + bcJg

/-- `cmpuNoArgs`. -/
def cmpuNoArgs : Nat := bcCmpu

/-- `cmpsNoArgs`. -/
def cmpsNoArgs : Nat := bcCmps

/-- `cmpfNoArgs`. -/
def cmpfNoArgs : Nat := bcCmpf

/-- `callNoArgs`. -/
def callNoArgs : Nat := bcCall

/-- `callOneArg`. -/
def callOneArg : Nat := 0x0100 + bcCall

/-- `returnNoArgs`. -/
def returnNoArgs : Nat := bcReturn

/-- `returnOneArg`. -/
def returnOneArg : Nat := 0x0100 + bcReturn

/-- `sysintOneArg`. -/
def sysintOneArg : Nat := 0x0100 + bcSysint

/-- `resumeNoArgs`. -/
def resumeNoArgs : Nat := bcResume

/-- `writeTwoArgs`. -/
def writeTwoArgs : Nat := 0x0200 + bcWrite

/-- `raddiOneArg`. -/
def raddiOneArg : Nat := 0x0100 + bcRaddi

/-- `raddiTwoArgs`. -/
def raddiTwoArgs : Nat := 0x0200 + bcRaddi

/-- `raddfOneArg`. -/
def raddfOneArg : Nat := 0x0100 + bcRaddf

/-- `raddfTwoArgs`. -/
def raddfTwoArgs : Nat := 0x0200 + bcRaddf

/-- `rsubiOneArg`. -/
def rsubiOneArg : Nat := 0x0100 + bcRsubi

/-- `rsubiTwoArgs`. -/
def rsubiTwoArgs : Nat := 0x0200 + bcRsubi

/-- `rsubfOneArg`. -/
def rsubfOneArg : Nat := 0x0100 + bcRsubf

/-- `rsubfTwoArgs`. -/
def rsubfTwoArgs : Nat := 0x0200 + bcRsubf

/-- `rmuliOneArg`. -/
def rmuliOneArg : Nat := 0x0100 + bcRmuli

/-- `rmuliTwoArgs`. -/
def rmuliTwoArgs : Nat := 0x0200 + bcRmuli

/-- `rmulfOneArg`. -/
def rmulfOneArg : Nat := 0x0100 + bcRmulf

/-- `rmulfTwoArgs`. -/
def rmulfTwoArgs : Nat := 0x0200 + bcRmulf

/-- `rdiviOneArg`. -/
def rdiviOneArg : Nat := 0x0100 + bcRdivi

/-- `rdiviTwoArgs`. -/
def rdiviTwoArgs : Nat := 0x0200 + bcRdivi

/-- `rdivfOneArg`. -/
def rdivfOneArg : Nat := 0x0100 + bcRdivf

/-- `rdivfTwoArgs`. -/
def rdivfTwoArgs : Nat := 0x0200 + bcRdivf

/-- `rshiftLOneArg`. -/
def rshiftLOneArg : Nat := 0x0100 + bcRshiftl

/-- `rshiftLTwoArgs`. -/
def rshiftLTwoArgs : Nat := 0x0200 + bcRshiftl

/-- `rshiftROneArg`. -/
def rshiftROneArg : Nat := 0x0100 + bcRshiftr

/-- `rshiftRTwoargs`. -/
def rshiftRTwoargs : Nat := 0x0200 + bcRshiftr

/-- `srLoadOneArg`. -/
def srLoadOneArg : Nat := 0x0100 + bcSrload

/-- `srStoreOneArg`. -/
def srStoreOneArg : Nat := 0x0100 + bcSrstore

/-- `haltNoArgs`. -/
def haltNoArgs : Nat := bcHalt

/-! ## Float passthrough

Single-precision IEEE-754 arithmetic (`math.Float32frombits` /
`math.Float32bits` round trips) is opaque bit-pattern passthrough in the
engine; it is modelled by an abstract operation table over bit patterns,
and every theorem holds for all instantiations. -/

/-- Abstract float32 bit-pattern operations used by the `*f` opcodes. -/
structure FloatOps where
  /-- bits of `Float32frombits x + Float32frombits y`. -/
  fadd : Nat → Nat → Nat
  /-- bits of float32 subtraction. -/
  fsub : Nat → Nat → Nat
  /-- bits of float32 multiplication. -/
  fmul : Nat → Nat → Nat
  /-- bits of float32 division (IEEE: no fault on zero divisor). -/
  fdiv : Nat → Nat → Nat
  /-- bits of `math.Mod` on the widened operands, narrowed back. -/
  frem : Nat → Nat → Nat
  /-- the `compare` result on float32 operands. -/
  fcompare : Nat → Nat → Nat

/-- A concrete instantiation of `FloatOps` used by witnesses. -/
def trivialFloatOps : FloatOps :=
  ⟨fun _ _ => 0, fun _ _ => 0, fun _ _ => 0, fun _ _ => 0,
   fun _ _ => 0, fun _ _ => 0⟩

/-- Go `uint32` left shift (shifts of 32 or more produce 0). -/
def u32shiftl (a b : Nat) : Nat := (a <<< b) % u32mod

/-- Go `uint32` right shift. -/
def u32shiftr (a b : Nat) : Nat := a >>> b

/-! ## Interrupt entry, call return, pointer access -/

/-- `vm.initForInterrupt`: snapshot SP, push the four words
`(PC, SP, FP, mode)` from low to high address, point FP at the new SP,
and on leaving unprivileged mode clear the mode and let the MMU widen the
active segment. -/
def initForInterrupt (s : VMState) : VMState :=
  let sp0 := s.sp
  let s1 := pushStackFour s s.pc sp0 s.fp s.mode
  let s2 := s1.setReg 2 s1.sp
  if s2.mode ≠ 0 then (mmuTrySend (s2.setReg 32 0) 3 []).1 else s2

/-- `returnFromCall`: back the stack up to FP, pop the saved PC and FP. -/
def returnFromCall (s : VMState) : VMState :=
  let s1 := s.setReg 1 s.fp
  let p := popStackx2Uint32 s1
  (p.1.setReg 0 p.2.1).setReg 2 p.2.2

/-- `loadp8`: one byte at the translated address, widened to 32 bits. -/
def loadp8 (s : VMState) (addr : Nat) : Nat :=
  s.memory (s.segStart + computeRelativeStackPointer s addr) % 256

/-- `loadp16`: two little-endian bytes at the translated address. -/
def loadp16 (s : VMState) (addr : Nat) : Nat :=
  readHalf s.memory (s.segStart + computeRelativeStackPointer s addr)

/-- `loadp32`: four little-endian bytes at the translated address. -/
def loadp32 (s : VMState) (addr : Nat) : Nat :=
  readWord s.memory (s.segStart + computeRelativeStackPointer s addr)

/-- `storep8`: low byte of the value at the translated address. -/
def storep8 (s : VMState) (addr v : Nat) : VMState :=
  { s with
    memory := memWriteByte s.memory
      (s.segStart + computeRelativeStackPointer s addr) v }

/-- `storep16`: low two bytes of the value at the translated address. -/
def storep16 (s : VMState) (addr v : Nat) : VMState :=
  let base := s.segStart + computeRelativeStackPointer s addr
  { s with
    memory := memWriteByte (memWriteByte s.memory base v) (base + 1) (v / 256) }

/-- `storep32`: all four value bytes at the translated address. -/
def storep32 (s : VMState) (addr v : Nat) : VMState :=
  { s with
    memory := writeWord s.memory
      (s.segStart + computeRelativeStackPointer s addr) v }

/-! ## One iteration of the engine loop -/

/-- Fetch at PC, advance PC by eight, decode, and dispatch — the body of
one `execInstructions` iteration after the exception/response phases.
The cases follow the source switch in order; the response-bus branch and
the surrounding `recover` are outside the sequential model (see the
header).  `fops` supplies the abstract float32 arithmetic. -/
def fetchExec (fops : FloatOps) (s0 : VMState) : VMState :=
  let d := decodeInstruction s0.memory s0.pc
  let code := d.1
  let opreg := d.2.1
  let oparg := d.2.2
  let s := s0.setReg 0 (u32add s0.pc instructionBytes)
  if code = nopNoArgs then s
  else if code = byteOneArg then pushStackByte s oparg
  else if code = constOneArg then pushStack s oparg
  else if code = loadOneArg then pushStack s (s.registers opreg)
  else if code = storeOneArg then
    let p := popStackUint32 s
    p.1.setReg opreg p.2
  else if code = kstoreOneArg then s.setReg opreg (peekStackWord s)
  else if code = loadp8NoArgs then writeTopWord s (loadp8 s (peekStackWord s))
  else if code = loadp16NoArgs then writeTopWord s (loadp16 s (peekStackWord s))
  else if code = loadp32NoArgs then writeTopWord s (loadp32 s (peekStackWord s))
  else if code = loadp8OneArg then
    writeTopWord s (loadp8 s (u32add (peekStackWord s) oparg))
  else if code = loadp16OneArg then
    writeTopWord s (loadp16 s (u32add (peekStackWord s) oparg))
  else if code = loadp32OneArg then
    writeTopWord s (loadp32 s (u32add (peekStackWord s) oparg))
  else if code = storep8NoArgs then
    let p := popStackx2Uint32 s
    storep8 p.1 p.2.1 p.2.2
  else if code = storep16NoArgs then
    let p := popStackx2Uint32 s
    storep16 p.1 p.2.1 p.2.2
  else if code = storep32NoArgs then
    let p := popStackx2Uint32 s
    storep32 p.1 p.2.1 p.2.2
  else if code = storep8OneArg then
    let p := popStackx2Uint32 s
    storep8 p.1 (u32add p.2.1 oparg) p.2.2
  else if code = storep16OneArg then
    let p := popStackx2Uint32 s
    storep16 p.1 (u32add p.2.1 oparg) p.2.2
  else if code = storep32OneArg then
    let p := popStackx2Uint32 s
    storep32 p.1 (u32add p.2.1 oparg) p.2.2
  else if code = pushNoArgs then
    let p := popStackUint32 s
    let s1 := p.1.setReg 1 (u32sub p.1.sp p.2)
    if computeRelativeStackPointer s1 s1.sp ≥ s1.segLen then
      { s1 with errcode := some .segmentationFault }
    else s1
  else if code = pushOneArg then
    let s1 := s.setReg 1 (u32sub s.sp oparg)
    if computeRelativeStackPointer s1 s1.sp ≥ s1.segLen then
      { s1 with errcode := some .segmentationFault }
    else s1
  else if code = popNoArgs then
    let p := popStackUint32 s
    let s1 := p.1.setReg 1 (u32add p.1.sp p.2)
    if computeRelativeStackPointer s1 s1.sp > s1.segLen then
      { s1 with errcode := some .segmentationFault }
    else s1
  else if code = popOneArg then
    let s1 := s.setReg 1 (u32add s.sp oparg)
    if computeRelativeStackPointer s1 s1.sp > s1.segLen then
      { s1 with errcode := some .segmentationFault }
    else s1
  else if code = addiNoArgs then
    let p := getStackTwoInputs s
    writeTopWord p.1 (u32add p.2.1 p.2.2)
  else if code = addiOneArg then writeTopWord s (u32add (getStackOneInput s) oparg)
  else if code = addfNoArgs then
    let p := getStackTwoInputs s
    writeTopWord p.1 (fops.fadd p.2.1 p.2.2)
  else if code = addfOneArg then writeTopWord s (fops.fadd (getStackOneInput s) oparg)
  else if code = subiNoArgs then
    let p := getStackTwoInputs s
    writeTopWord p.1 (u32sub p.2.1 p.2.2)
  else if code = subiOneArg then writeTopWord s (u32sub (getStackOneInput s) oparg)
  else if code = subfNoArgs then
    let p := getStackTwoInputs s
    writeTopWord p.1 (fops.fsub p.2.1 p.2.2)
  else if code = subfOneArg then writeTopWord s (fops.fsub (getStackOneInput s) oparg)
  else if code = muliNoArgs then
    let p := getStackTwoInputs s
    writeTopWord p.1 (u32mul p.2.1 p.2.2)
  else if code = muliOneArg then writeTopWord s (u32mul (getStackOneInput s) oparg)
  else if code = mulfNoArgs then
    let p := getStackTwoInputs s
    writeTopWord p.1 (fops.fmul p.2.1 p.2.2)
  else if code = mulfOneArg then writeTopWord s (fops.fmul (getStackOneInput s) oparg)
  else if code = diviNoArgs then
    let p := getStackTwoInputs s
    if p.2.2 = 0 then { p.1 with errcode := some .divisionByZero }
    else writeTopWord p.1 (p.2.1 / p.2.2)
  else if code = diviOneArg then
    if oparg = 0 then { s with errcode := some .divisionByZero }
    else writeTopWord s (getStackOneInput s / oparg)
  else if code = divfNoArgs then
    let p := getStackTwoInputs s
    writeTopWord p.1 (fops.fdiv p.2.1 p.2.2)
  else if code = divfOneArg then writeTopWord s (fops.fdiv (getStackOneInput s) oparg)
  else if code = raddiOneArg then
    let r := computeRelativeStackPointer s s.sp
    let s1 := s.setReg opreg (u32add (s.registers opreg) (getStackOneInput s))
    segWriteWord s1 r (s1.registers opreg)
  else if code = raddiTwoArgs then
    let s1 := s.setReg opreg (u32add (s.registers opreg) oparg)
    pushStack s1 (s1.registers opreg)
  else if code = raddfOneArg then
    let r := computeRelativeStackPointer s s.sp
    let s1 := s.setReg opreg (fops.fadd (s.registers opreg) (getStackOneInput s))
    segWriteWord s1 r (s1.registers opreg)
  else if code = raddfTwoArgs then
    let s1 := s.setReg opreg (fops.fadd (s.registers opreg) oparg)
    pushStack s1 (s1.registers opreg)
  else if code = rsubiOneArg then
    let r := computeRelativeStackPointer s s.sp
    let s1 := s.setReg opreg (u32sub (s.registers opreg) (getStackOneInput s))
    segWriteWord s1 r (s1.registers opreg)
  else if code = rsubiTwoArgs then
    let s1 := s.setReg opreg (u32sub (s.registers opreg) oparg)
    pushStack s1 (s1.registers opreg)
  else if code = rsubfOneArg then
    let r := computeRelativeStackPointer s s.sp
    let s1 := s.setReg opreg (fops.fsub (s.registers opreg) (getStackOneInput s))
    segWriteWord s1 r (s1.registers opreg)
  else if code = rsubfTwoArgs then
    let s1 := s.setReg opreg (fops.fsub (s.registers opreg) oparg)
    pushStack s1 (s1.registers opreg)
  else if code = rmuliOneArg then
    let r := computeRelativeStackPointer s s.sp
    let s1 := s.setReg opreg (u32mul (s.registers opreg) (getStackOneInput s))
    segWriteWord s1 r (s1.registers opreg)
  else if code = rmuliTwoArgs then
    let s1 := s.setReg opreg (u32mul (s.registers opreg) oparg)
    pushStack s1 (s1.registers opreg)
  else if code = rmulfOneArg then
    let r := computeRelativeStackPointer s s.sp
    let s1 := s.setReg opreg (fops.fmul (s.registers opreg) (getStackOneInput s))
    segWriteWord s1 r (s1.registers opreg)
  else if code = rmulfTwoArgs then
    let s1 := s.setReg opreg (fops.fmul (s.registers opreg) oparg)
    pushStack s1 (s1.registers opreg)
  else if code = rdiviOneArg then
    let r := computeRelativeStackPointer s s.sp
    let x := getStackOneInput s
    if x = 0 then { s with errcode := some .divisionByZero }
    else
      let s1 := s.setReg opreg (s.registers opreg % u32mod / x)
      segWriteWord s1 r (s1.registers opreg)
  else if code = rdiviTwoArgs then
    if oparg = 0 then { s with errcode := some .divisionByZero }
    else
      let s1 := s.setReg opreg (s.registers opreg % u32mod / oparg)
      pushStack s1 (s1.registers opreg)
  else if code = rdivfOneArg then
    let r := computeRelativeStackPointer s s.sp
    let s1 := s.setReg opreg (fops.fdiv (s.registers opreg) (getStackOneInput s))
    segWriteWord s1 r (s1.registers opreg)
  else if code = rdivfTwoArgs then
    let s1 := s.setReg opreg (fops.fdiv (s.registers opreg) oparg)
    pushStack s1 (s1.registers opreg)
  else if code = rshiftLOneArg then
    let r := computeRelativeStackPointer s s.sp
    let s1 := s.setReg opreg (u32shiftl (s.registers opreg) (getStackOneInput s))
    segWriteWord s1 r (s1.registers opreg)
  else if code = rshiftLTwoArgs then
    let s1 := s.setReg opreg (u32shiftl (s.registers opreg) oparg)
    pushStack s1 (s1.registers opreg)
  else if code = rshiftROneArg then
    let r := computeRelativeStackPointer s s.sp
    let s1 := s.setReg opreg (u32shiftr (s.registers opreg % u32mod) (getStackOneInput s))
    segWriteWord s1 r (s1.registers opreg)
  else if code = rshiftRTwoargs then
    let s1 := s.setReg opreg (u32shiftr (s.registers opreg % u32mod) oparg)
    pushStack s1 (s1.registers opreg)
  else if code = remuNoArgs then
    let p := getStackTwoInputs s
    let e1 : Option ErrCode := if p.2.2 = 0 then some .divisionByZero else none
    let s1 := { p.1 with errcode := e1 }
    writeTopWord s1 (if p.2.2 = 0 then 0 else p.2.1 % p.2.2)
  else if code = remuOneArg then
    let x := getStackOneInput s
    let e1 : Option ErrCode := if oparg = 0 then some .divisionByZero else none
    let s1 := { s with errcode := e1 }
    writeTopWord s1 (if oparg = 0 then 0 else x % oparg)
  else if code = remsNoArgs then
    let p := getStackTwoInputs s
    let e1 : Option ErrCode := if toInt32 p.2.2 = 0 then some .divisionByZero else none
    let s1 := { p.1 with errcode := e1 }
    writeTopWord s1
      (if toInt32 p.2.2 = 0 then 0
       else intToU32 (Int.tmod (toInt32 p.2.1) (toInt32 p.2.2)))
  else if code = remsOneArg then
    let x := getStackOneInput s
    let e1 : Option ErrCode := if toInt32 oparg = 0 then some .divisionByZero else none
    let s1 := { s with errcode := e1 }
    writeTopWord s1
      (if toInt32 oparg = 0 then 0
       else intToU32 (Int.tmod (toInt32 x) (toInt32 oparg)))
  else if code = remfNoArgs then
    let p := getStackTwoInputs s
    writeTopWord p.1 (fops.frem p.2.1 p.2.2)
  else if code = remfOneArg then writeTopWord s (fops.frem (getStackOneInput s) oparg)
  else if code = notNoArgs then writeTopWord s (u32not (getStackOneInput s))
  else if code = andNoArgs then
    let p := getStackTwoInputs s
    writeTopWord p.1 (p.2.1 &&& p.2.2)
  else if code = andOneArg then writeTopWord s (getStackOneInput s &&& oparg)
  else if code = orNoArgs then
    let p := getStackTwoInputs s
    writeTopWord p.1 (p.2.1 ||| p.2.2)
  else if code = orOneArg then writeTopWord s (getStackOneInput s ||| oparg)
  else if code = xorNoArgs then
    let p := getStackTwoInputs s
    writeTopWord p.1 (p.2.1 ^^^ p.2.2)
  else if code = xorOneArg then writeTopWord s (getStackOneInput s ^^^ oparg)
  else if code = shiftLNoArgs then
    let p := getStackTwoInputs s
    writeTopWord p.1 (u32shiftl p.2.1 p.2.2)
  else if code = shiftLOneArg then writeTopWord s (u32shiftl (getStackOneInput s) oparg)
  else if code = shiftRNoArgs then
    let p := getStackTwoInputs s
    writeTopWord p.1 (u32shiftr p.2.1 p.2.2)
  else if code = shiftROneArg then writeTopWord s (u32shiftr (getStackOneInput s) oparg)
  else if code = jmpNoArgs then
    let p := popStackUint32 s
    p.1.setReg 0 p.2
  else if code = jmpOneArg then s.setReg 0 oparg
  else if code = jzNoArgs then
    let p := popStackx2Uint32 s
    if p.2.2 = 0 then p.1.setReg 0 p.2.1 else p.1
  else if code = jzOneArg then
    let p := popStackUint32 s
    if p.2 = 0 then p.1.setReg 0 oparg else p.1
  else if code = jnzNoArgs then
    let p := popStackx2Uint32 s
    if p.2.2 ≠ 0 then p.1.setReg 0 p.2.1 else p.1
  else if code = jnzOneArg then
    let p := popStackUint32 s
    if p.2 ≠ 0 then p.1.setReg 0 oparg else p.1
  else if code = jleNoArgs then
    let p := popStackx2Uint32 s
    if toInt32 p.2.2 ≤ 0 then p.1.setReg 0 p.2.1 else p.1
  else if code = jleOneArg then
    let p := popStackUint32 s
    if toInt32 p.2 ≤ 0 then p.1.setReg 0 oparg else p.1
  else if code = jlNoArgs then
    let p := popStackx2Uint32 s
    if toInt32 p.2.2 < 0 then p.1.setReg 0 p.2.1 else p.1
  else if code = jlOneArg then
    let p := popStackUint32 s
    if toInt32 p.2 < 0 then p.1.setReg 0 oparg else p.1
  else if code = jgeNoArgs then
    let p := popStackx2Uint32 s
    if 0 ≤ toInt32 p.2.2 then p.1.setReg 0 p.2.1 else p.1
  else if code = jgeOneArg then
    let p := popStackUint32 s
    if 0 ≤ toInt32 p.2 then p.1.setReg 0 oparg else p.1
  else if code = jgNoArgs then
    let p := popStackx2Uint32 s
    if 0 < toInt32 p.2.2 then p.1.setReg 0 p.2.1 else p.1
  else if code = jgOneArg then
    let p := popStackUint32 s
    if 0 < toInt32 p.2 then p.1.setReg 0 oparg else p.1
  else if code = cmpuNoArgs then
    let p := getStackTwoInputs s
    writeTopWord p.1 (compareU32 p.2.1 p.2.2)
  else if code = cmpsNoArgs then
    let p := getStackTwoInputs s
    writeTopWord p.1 (compareI32 (toInt32 p.2.1) (toInt32 p.2.2))
  else if code = cmpfNoArgs then
    let p := getStackTwoInputs s
    writeTopWord p.1 (fops.fcompare p.2.1 p.2.2)
  else if code = callNoArgs then
    let addr := peekStackWord s
    let s1 := writeTopWord s s.fp
    let s2 := pushStack s1 s1.pc
    (s2.setReg 0 addr).setReg 2 (s2.sp)
  else if code = callOneArg then
    let s1 := pushStackTwo s s.pc s.fp
    (s1.setReg 0 oparg).setReg 2 s1.sp
  else if code = returnNoArgs then returnFromCall s
  else if code = returnOneArg then
    let relsp := computeRelativeStackPointer s s.sp
    let bytes := (List.range oparg).map (fun i => s.memory (s.segStart + relsp + i) % 256)
    pushStackSegment (returnFromCall s) bytes
  else if code = srLoadOneArg then
    if s.mode ≠ 0 then { s with errcode := some .illegalInstruction }
    else pushStack s (s.registers opreg)
  else if code = srStoreOneArg then
    if s.mode ≠ 0 then { s with errcode := some .illegalInstruction }
    else
      let p := popStackUint32 s
      (mmuTrySend (p.1.setReg opreg p.2) 3 []).1
  else if code = sysintOneArg then
    if oparg < restrictedInterruptsAddrRange ∧ s.mode ≠ 0 then
      { s with errcode := some .illegalInstruction }
    else
      let handlerAddr := readWord s.memory oparg
      if handlerAddr = 0 then { s with errcode := some .unknownInstruction }
      else (initForInterrupt s).setReg 0 handlerAddr
  else if code = resumeNoArgs then
    if s.mode ≠ 0 then { s with errcode := some .illegalInstruction }
    else
      let p := popStackx4Uint32 (s.setReg 1 s.fp)
      let s2 := if p.2.2.2.2 ≠ 0 then (mmuTrySend (p.1.setReg 32 p.2.2.2.2) 3 []).1 else p.1
      ((s2.setReg 0 p.2.1).setReg 1 p.2.2.1).setReg 2 p.2.2.2.1
  else if code = writeTwoArgs then
    if s.mode ≠ 0 then { s with errcode := some .illegalInstruction }
    else if oparg = 0 then
      pushStackTwo (pushStackSegment s []) (deviceHWID opreg) 0
    else
      let p := popStackx2Uint32 s
      let sptr := p.1.sp
      let data := (List.range p.2.2).map (fun i => p.1.memory (sptr + i) % 256)
      let s2 := p.1.setReg 1 (u32add p.1.sp p.2.2)
      let r := deviceTrySend s2 opreg oparg data
      pushStack r.1 r.2
  else if code = haltNoArgs then
    if s.mode ≠ 0 then { s with errcode := some .illegalInstruction }
    else s.setReg 0 (u32sub s.pc instructionBytes)
  else { s with errcode := some .unknownInstruction }

/-- The outcome of one engine-loop iteration. -/
inductive StepResult where
  /-- `execInstructions` returns with the final error (the state is left
  exactly as it was when the zero/unmapped handler slot was found). -/
  | terminated (e : ErrCode) (s : VMState)
  /-- The iteration continues with the given state. -/
  | running (s : VMState)

/-- The exception phase at the top of each loop iteration: with a pending
error code, look it up in `hardwareExceptionMap` (an unmapped code, such
as the shutdown, ends the run); read the mapped IVT slot from memory; a
zero slot ends the run with the pending code; otherwise enter the handler
via `initForInterrupt`, point PC at it and clear the pending code. -/
def exceptionPhase (s : VMState) : StepResult :=
  match s.errcode with
  | none => .running s
  | some e =>
    match hardwareExceptionMap e with
    | none => .terminated e s
    | some slot =>
      let handlerAddr := readWord s.memory slot
      if handlerAddr = 0 then .terminated e s
      else .running { (initForInterrupt s).setReg 0 handlerAddr with errcode := none }

/-- One full iteration of `execInstructions`: the exception phase, then —
still inside the same iteration — fetch, decode and dispatch. -/
def execStep (fops : FloatOps) (s : VMState) : StepResult :=
  match exceptionPhase s with
  | .terminated e s' => .terminated e s'
  | .running s' => .running (fetchExec fops s')

/-! ## Small rewriting lemmas about state components -/

theorem registers_setReg (s : VMState) (i v j : Nat) :
    (s.setReg i v).registers j = if j = i then v % u32mod else s.registers j := rfl

theorem pc_setReg_zero (s : VMState) (v : Nat) : (s.setReg 0 v).pc = v % u32mod := rfl

theorem sp_setReg_zero (s : VMState) (v : Nat) : (s.setReg 0 v).sp = s.sp := rfl

theorem fp_setReg_zero (s : VMState) (v : Nat) : (s.setReg 0 v).fp = s.fp := rfl

theorem mode_setReg_zero (s : VMState) (v : Nat) : (s.setReg 0 v).mode = s.mode := rfl

theorem pc_setReg_one (s : VMState) (v : Nat) : (s.setReg 1 v).pc = s.pc := rfl

theorem sp_setReg_one (s : VMState) (v : Nat) : (s.setReg 1 v).sp = v % u32mod := rfl

theorem fp_setReg_one (s : VMState) (v : Nat) : (s.setReg 1 v).fp = s.fp := rfl

theorem mode_setReg_one (s : VMState) (v : Nat) : (s.setReg 1 v).mode = s.mode := rfl

theorem pc_setReg_two (s : VMState) (v : Nat) : (s.setReg 2 v).pc = s.pc := rfl

theorem sp_setReg_two (s : VMState) (v : Nat) : (s.setReg 2 v).sp = s.sp := rfl

theorem fp_setReg_two (s : VMState) (v : Nat) : (s.setReg 2 v).fp = v % u32mod := rfl

theorem mode_setReg_two (s : VMState) (v : Nat) : (s.setReg 2 v).mode = s.mode := rfl

theorem pc_setReg_mode (s : VMState) (v : Nat) : (s.setReg 32 v).pc = s.pc := rfl

theorem sp_setReg_mode (s : VMState) (v : Nat) : (s.setReg 32 v).sp = s.sp := rfl

theorem fp_setReg_mode (s : VMState) (v : Nat) : (s.setReg 32 v).fp = s.fp := rfl

theorem mode_setReg_mode (s : VMState) (v : Nat) : (s.setReg 32 v).mode = v % u32mod := rfl

theorem memory_setReg (s : VMState) (i v : Nat) : (s.setReg i v).memory = s.memory := rfl

theorem segStart_setReg (s : VMState) (i v : Nat) : (s.setReg i v).segStart = s.segStart := rfl

theorem segLen_setReg (s : VMState) (i v : Nat) : (s.setReg i v).segLen = s.segLen := rfl

theorem stackOffsetBytes_setReg (s : VMState) (i v : Nat) :
    (s.setReg i v).stackOffsetBytes = s.stackOffsetBytes := rfl

theorem errcode_setReg (s : VMState) (i v : Nat) : (s.setReg i v).errcode = s.errcode := rfl

theorem mmuMin_setReg (s : VMState) (i v : Nat) : (s.setReg i v).mmuMin = s.mmuMin := rfl

theorem mmuMax_setReg (s : VMState) (i v : Nat) : (s.setReg i v).mmuMax = s.mmuMax := rfl

theorem u32add_lt (a b : Nat) : u32add a b < u32mod := by
  simp only [u32add, u32mod]; omega

theorem u32sub_lt (a b : Nat) : u32sub a b < u32mod := by
  simp only [u32sub, u32mod]; omega

theorem u32add_mod (a b : Nat) : u32add a b % u32mod = u32add a b := by
  simp only [u32add, u32mod]; omega

theorem u32sub_mod (a b : Nat) : u32sub a b % u32mod = u32sub a b := by
  simp only [u32sub, u32mod]; omega

theorem u32add_eq (a b : Nat) (h : a + b < u32mod) : u32add a b = a + b := by
  simp only [u32add, u32mod] at *; omega

theorem u32sub_eq (a b : Nat) (hb : b ≤ a) (ha : a < u32mod) (hb2 : b < u32mod) :
    u32sub a b = a - b := by
  simp only [u32sub, u32mod] at *; omega

/-! ## Concrete machine states used by witnesses and counterexamples -/

/-- Encode one instruction at `addr` the way `NewVirtualMachine` lays it
out: `uint16ToBytes(code)`, `uint16ToBytes(register)`, `uint32ToBytes(arg)`
— equivalently one little-endian word `code + 65536 * register` followed
by the argument word. -/
def encodeInstr (m : Mem) (addr code reg arg : Nat) : Mem :=
  writeWord (writeWord m addr (code + 65536 * reg)) (addr + 4) arg

/-- Register file of a freshly initialised VM: PC at the image base, SP
and FP one past the last stack address, everything else zero. -/
def initialRegisters : Nat → Nat := fun i =>
  if i = 0 then reservedBytes
  else if i = 1 then heapSizeBytes
  else if i = 2 then heapSizeBytes
  else 0

/-- A freshly initialised privileged VM over zeroed memory. -/
def baseState : VMState :=
  { registers := initialRegisters
    memory := fun _ => 0
    segStart := 0
    segLen := heapSizeBytes
    stackOffsetBytes := 0
    mmuMin := 0
    mmuMax := heapSizeBytes
    processInstructionBytes := 0
    errcode := none
    output := [] }

/-- The state for the C10 witness: a `pop 4` instruction at the image
base and SP four bytes above the end of memory. -/
def popWitnessState : VMState :=
  { baseState with
    registers := fun i =>
      if i = 0 then reservedBytes
      else if i = 1 then 65532
      else if i = 2 then heapSizeBytes
      else 0
    memory := encodeInstr (fun _ => 0) reservedBytes popOneArg 0 4 }

/-- C10: for both forms of `pop`, the explicit bounds check fires only
when the resulting relative stack pointer is strictly greater than the
active-segment length; leaving SP exactly at the one-past-the-end address
(relative offset equal to the segment length, e.g. SP = 65536 with the
full-memory segment, the initial SP) does not fault.  For the no-argument
form the byte count is the popped top-of-stack word; its read is assumed
in bounds (out of range the host panic would surface as a segmentation
fault before the check). -/
theorem pop_bounds_check_strictly_greater (fops : FloatOps) (s : VMState)
    (r a : Nat) (herr : s.errcode = none) :
    (decodeInstruction s.memory s.pc = (popOneArg, r, a) →
      (fetchExec fops s).sp = u32add s.sp a ∧
      (computeRelativeStackPointer s (u32add s.sp a) ≤ s.segLen →
        (fetchExec fops s).errcode = none) ∧
      (s.segLen < computeRelativeStackPointer s (u32add s.sp a) →
        (fetchExec fops s).errcode = some .segmentationFault)) ∧
    (decodeInstruction s.memory s.pc = (popNoArgs, r, a) →
      computeRelativeStackPointer s s.sp + varchBytes ≤ s.segLen →
      (fetchExec fops s).sp =
        u32add (u32add s.sp varchBytes) (peekStackWord s) ∧
      (computeRelativeStackPointer s
          (u32add (u32add s.sp varchBytes) (peekStackWord s)) ≤ s.segLen →
        (fetchExec fops s).errcode = none) ∧
      (s.segLen < computeRelativeStackPointer s
          (u32add (u32add s.sp varchBytes) (peekStackWord s)) →
        (fetchExec fops s).errcode = some .segmentationFault)) := by
  constructor
  · intro hdec
    unfold fetchExec
    rw [hdec]
    simp only [nopNoArgs, byteOneArg, constOneArg, loadOneArg, storeOneArg, kstoreOneArg,
    loadp8NoArgs, loadp16NoArgs, loadp32NoArgs, loadp8OneArg, loadp16OneArg,
    loadp32OneArg, storep8NoArgs, storep16NoArgs, storep32NoArgs,
    storep8OneArg, storep16OneArg, storep32OneArg, pushNoArgs, pushOneArg,
    popNoArgs, popOneArg, addiNoArgs, addiOneArg, addfNoArgs, addfOneArg,
    subiNoArgs, subiOneArg, subfNoArgs, subfOneArg, muliNoArgs, muliOneArg,
    mulfNoArgs, mulfOneArg, diviNoArgs, diviOneArg, divfNoArgs, divfOneArg,
    raddiOneArg, raddiTwoArgs, raddfOneArg, raddfTwoArgs, rsubiOneArg,
    rsubiTwoArgs, rsubfOneArg, rsubfTwoArgs, rmuliOneArg, rmuliTwoArgs,
    rmulfOneArg, rmulfTwoArgs, rdiviOneArg, rdiviTwoArgs, rdivfOneArg,
    rdivfTwoArgs, rshiftLOneArg, rshiftLTwoArgs, rshiftROneArg,
    rshiftRTwoargs, remuNoArgs, remuOneArg, remsNoArgs, remsOneArg,
    remfNoArgs, remfOneArg, notNoArgs, andNoArgs, andOneArg, orNoArgs,
    orOneArg, xorNoArgs, xorOneArg, shiftLNoArgs, shiftLOneArg, shiftRNoArgs,
    shiftROneArg, jmpNoArgs, jmpOneArg, jzNoArgs, jzOneArg, jnzNoArgs,
    jnzOneArg, jleNoArgs, jleOneArg, jlNoArgs, jlOneArg, jgeNoArgs,
    jgeOneArg, jgNoArgs, jgOneArg, cmpuNoArgs, cmpsNoArgs, cmpfNoArgs,
    callNoArgs, callOneArg, returnNoArgs, returnOneArg, sysintOneArg,
    resumeNoArgs, writeTwoArgs, srLoadOneArg, srStoreOneArg, haltNoArgs,
    bcNop, bcByte, bcConst, bcRload, bcRstore, bcRkstore, bcLoadp8,
    bcLoadp16, bcLoadp32, bcStorep8, bcStorep16, bcStorep32, bcPush, bcPop,
    bcAddi, bcAddf, bcSubi, bcSubf, bcMuli, bcMulf, bcDivi, bcDivf, bcRemu,
    bcRems, bcRemf, bcNot, bcAnd, bcOr, bcXor, bcShiftr, bcShiftl, bcJmp,
    bcJz, bcJnz, bcJle, bcJl, bcJge, bcJg, bcCmpu, bcCmps, bcCmpf, bcCall,
    bcReturn, bcSysint, bcResume, bcWrite, bcSrload, bcSrstore, bcHalt,
    bcRaddi, bcRaddf, bcRsubi, bcRsubf, bcRmuli, bcRmulf, bcRdivi, bcRdivf,
    bcRshiftr, bcRshiftl]
    norm_num
    simp only [VMState.sp, VMState.errcode, computeRelativeStackPointer,
      registers_setReg, stackOffsetBytes_setReg, segLen_setReg, errcode_setReg,
      VMState.setReg, u32add_mod]
    norm_num [u32add_mod, herr]
    refine ⟨by split_ifs <;> simp [u32add_mod], ?_, ?_⟩
    · intro hle
      rw [if_neg (by omega)]
    · intro hgt
      rw [if_pos (by omega)]
  · intro hdec hread
    unfold fetchExec
    rw [hdec]
    simp only [nopNoArgs, byteOneArg, constOneArg, loadOneArg, storeOneArg, kstoreOneArg,
    loadp8NoArgs, loadp16NoArgs, loadp32NoArgs, loadp8OneArg, loadp16OneArg,
    loadp32OneArg, storep8NoArgs, storep16NoArgs, storep32NoArgs,
    storep8OneArg, storep16OneArg, storep32OneArg, pushNoArgs, pushOneArg,
    popNoArgs, popOneArg, addiNoArgs, addiOneArg, addfNoArgs, addfOneArg,
    subiNoArgs, subiOneArg, subfNoArgs, subfOneArg, muliNoArgs, muliOneArg,
    mulfNoArgs, mulfOneArg, diviNoArgs, diviOneArg, divfNoArgs, divfOneArg,
    raddiOneArg, raddiTwoArgs, raddfOneArg, raddfTwoArgs, rsubiOneArg,
    rsubiTwoArgs, rsubfOneArg, rsubfTwoArgs, rmuliOneArg, rmuliTwoArgs,
    rmulfOneArg, rmulfTwoArgs, rdiviOneArg, rdiviTwoArgs, rdivfOneArg,
    rdivfTwoArgs, rshiftLOneArg, rshiftLTwoArgs, rshiftROneArg,
    rshiftRTwoargs, remuNoArgs, remuOneArg, remsNoArgs, remsOneArg,
    remfNoArgs, remfOneArg, notNoArgs, andNoArgs, andOneArg, orNoArgs,
    orOneArg, xorNoArgs, xorOneArg, shiftLNoArgs, shiftLOneArg, shiftRNoArgs,
    shiftROneArg, jmpNoArgs, jmpOneArg, jzNoArgs, jzOneArg, jnzNoArgs,
    jnzOneArg, jleNoArgs, jleOneArg, jlNoArgs, jlOneArg, jgeNoArgs,
    jgeOneArg, jgNoArgs, jgOneArg, cmpuNoArgs, cmpsNoArgs, cmpfNoArgs,
    callNoArgs, callOneArg, returnNoArgs, returnOneArg, sysintOneArg,
    resumeNoArgs, writeTwoArgs, srLoadOneArg, srStoreOneArg, haltNoArgs,
    bcNop, bcByte, bcConst, bcRload, bcRstore, bcRkstore, bcLoadp8,
    bcLoadp16, bcLoadp32, bcStorep8, bcStorep16, bcStorep32, bcPush, bcPop,
    bcAddi, bcAddf, bcSubi, bcSubf, bcMuli, bcMulf, bcDivi, bcDivf, bcRemu,
    bcRems, bcRemf, bcNot, bcAnd, bcOr, bcXor, bcShiftr, bcShiftl, bcJmp,
    bcJz, bcJnz, bcJle, bcJl, bcJge, bcJg, bcCmpu, bcCmps, bcCmpf, bcCall,
    bcReturn, bcSysint, bcResume, bcWrite, bcSrload, bcSrstore, bcHalt,
    bcRaddi, bcRaddf, bcRsubi, bcRsubf, bcRmuli, bcRmulf, bcRdivi, bcRdivf,
    bcRshiftr, bcRshiftl]
    norm_num
    simp only [popStackUint32, peekStackWord, segReadWord, VMState.sp, VMState.errcode,
      computeRelativeStackPointer, registers_setReg, stackOffsetBytes_setReg,
      segLen_setReg, errcode_setReg, memory_setReg, segStart_setReg,
      VMState.setReg, u32add_mod]
    norm_num [u32add_mod, herr]
    refine ⟨by split_ifs <;> simp [u32add_mod], ?_, ?_⟩
    · intro hle
      rw [if_neg (by omega)]
    · intro hgt
      rw [if_pos (by omega)]

/-- C10 witness: the concrete `pop 4` at SP = 65532 lands SP exactly one
past the end of the full-memory segment and does not fault. -/
theorem pop_bounds_check_strictly_greater_witness :
    (fetchExec trivialFloatOps popWitnessState).sp = 65536 ∧
    (fetchExec trivialFloatOps popWitnessState).errcode = none := by
  have h := (pop_bounds_check_strictly_greater trivialFloatOps popWitnessState
    0 4 rfl).1 (by decide)
  exact ⟨h.1.trans (by decide), h.2.1 (by decide)⟩

/-! ## Equation lemmas for the stack operations -/

theorem pushStack_eq (s : VMState) (v : Nat) :
    pushStack s v =
      { s with
        registers := fun j => if j = 1 then u32sub s.sp varchBytes else s.registers j,
        memory := writeWord s.memory
          (s.segStart + u32sub (u32sub s.sp varchBytes) s.stackOffsetBytes) v } := by
  simp [pushStack, segWriteWord, VMState.setReg, VMState.sp,
    computeRelativeStackPointer, u32sub_mod]

theorem pushStackTwo_eq (s : VMState) (v0 v1 : Nat) :
    pushStackTwo s v0 v1 =
      { s with
        registers := fun j => if j = 1 then u32sub s.sp 8 else s.registers j,
        memory := writeWord (writeWord s.memory
            (s.segStart + u32sub (u32sub s.sp 8) s.stackOffsetBytes) v0)
          (s.segStart + u32sub (u32sub s.sp 8) s.stackOffsetBytes + 4) v1 } := by
  simp [pushStackTwo, VMState.setReg, VMState.sp,
    computeRelativeStackPointer, u32sub_mod, varchBytes]

theorem pushStackFour_eq (s : VMState) (v0 v1 v2 v3 : Nat) :
    pushStackFour s v0 v1 v2 v3 =
      { s with
        registers := fun j => if j = 1 then u32sub s.sp 16 else s.registers j,
        memory := writeWord (writeWord (writeWord (writeWord s.memory
            (s.segStart + u32sub (u32sub s.sp 16) s.stackOffsetBytes) v0)
          (s.segStart + u32sub (u32sub s.sp 16) s.stackOffsetBytes + 4) v1)
          (s.segStart + u32sub (u32sub s.sp 16) s.stackOffsetBytes + 8) v2)
          (s.segStart + u32sub (u32sub s.sp 16) s.stackOffsetBytes + 12) v3 } := by
  simp [pushStackFour, VMState.setReg, VMState.sp,
    computeRelativeStackPointer, u32sub_mod, varchBytes]

theorem writeTopWord_eq (s : VMState) (v : Nat) :
    writeTopWord s v =
      { s with memory :=
          writeWord s.memory (s.segStart + u32sub s.sp s.stackOffsetBytes) v } := by
  simp [writeTopWord, segWriteWord, computeRelativeStackPointer]

theorem popStackUint32_eq (s : VMState) :
    popStackUint32 s =
      ({ s with registers := fun j => if j = 1 then u32add s.sp varchBytes
                             else s.registers j },
       readWord s.memory (s.segStart + u32sub s.sp s.stackOffsetBytes)) := by
  simp [popStackUint32, VMState.setReg, VMState.sp, segReadWord,
    computeRelativeStackPointer, u32add_mod]

theorem popStackx2Uint32_eq (s : VMState) :
    popStackx2Uint32 s =
      ({ s with registers := fun j => if j = 1 then u32add s.sp 8
                             else s.registers j },
       readWord s.memory (s.segStart + u32sub s.sp s.stackOffsetBytes),
       readWord s.memory (s.segStart + u32sub s.sp s.stackOffsetBytes + 4)) := by
  simp [popStackx2Uint32, Nat.add_assoc, VMState.setReg, VMState.sp, segReadWord,
    computeRelativeStackPointer, u32add_mod, varchBytes]

theorem popStackx4Uint32_eq (s : VMState) :
    popStackx4Uint32 s =
      ({ s with registers := fun j => if j = 1 then u32add s.sp 16
                             else s.registers j },
       readWord s.memory (s.segStart + u32sub s.sp s.stackOffsetBytes),
       readWord s.memory (s.segStart + u32sub s.sp s.stackOffsetBytes + 4),
       readWord s.memory (s.segStart + u32sub s.sp s.stackOffsetBytes + 8),
       readWord s.memory (s.segStart + u32sub s.sp s.stackOffsetBytes + 12)) := by
  simp [popStackx4Uint32, Nat.add_assoc, VMState.setReg, VMState.sp, segReadWord,
    computeRelativeStackPointer, u32add_mod, varchBytes]

theorem getStackTwoInputs_eq (s : VMState) :
    getStackTwoInputs s =
      ({ s with registers := fun j => if j = 1 then u32add s.sp varchBytes
                             else s.registers j },
       readWord s.memory (s.segStart + u32sub s.sp s.stackOffsetBytes),
       readWord s.memory (s.segStart + u32sub s.sp s.stackOffsetBytes + 4)) := by
  simp [getStackTwoInputs, Nat.add_assoc, VMState.setReg, VMState.sp, segReadWord,
    computeRelativeStackPointer, u32add_mod]

theorem peekStackWord_eq (s : VMState) :
    peekStackWord s =
      readWord s.memory (s.segStart + u32sub s.sp s.stackOffsetBytes) := by
  simp [peekStackWord, segReadWord, computeRelativeStackPointer]

theorem mmuTrySend_cmd3 (s : VMState) (data : List Nat) :
    (mmuTrySend s 3 data).1 = mmuUpdateBounds s := by
  simp [mmuTrySend]
